import Mathlib

/-!
Verification of the protobuf build orchestrator (`src/protobuf/build.rs`).

The build script is modelled as a shallow embedding: the host platform is a
record of the `cfg!` predicates the script consults; every interaction with
the outside world (filesystem primitives, the external cmake build, the
prost_build toolchain invocation) is mediated by an oracle record `Ext`
whose fields say whether each primitive succeeds and what the opaque
external build produces; the mutable state touched by the script (existence
of the fixed directories it queries, the staged artifact contents, the
`DYLD_LIBRARY_PATH` variable, the lines printed for cargo) is a `World`
record threaded through explicitly.  Each Rust function becomes a Lean
function from `Platform`, `Ext` and `World` to `Except Err Unit × World`,
transcribed line by line from the source.
-/

namespace ProtobufBuild

/-- `const PROTOBUF_VERSION: &str = "25.8";` -/
def PROTOBUF_VERSION : String := "25.8"

/-- `const PROTOBUF_TAG: &str = "v25.8";` -/
def PROTOBUF_TAG : String := "v25.8"

/-- Target architecture, as consulted by `cfg!(target_arch = ...)`. -/
inductive Arch where
  | aarch64
  | x86_64
  | other
deriving DecidableEq, Repr

/-- The platform predicates the build script consults: `cfg!(windows)`,
`cfg!(target_os = "macos")` and `cfg!(target_arch = ...)`. -/
structure Platform where
  windows : Bool
  macos : Bool
  arch : Arch
deriving DecidableEq, Repr

/-- Path separator used by `PathBuf::join` / `Display` on the host. -/
def sep (p : Platform) : String := if p.windows then "\\" else "/"

/-- `PathBuf::join` on displayed paths. -/
def pathJoin (p : Platform) (a b : String) : String := a ++ sep p ++ b

/-- `out_dir.join(format!("protobuf-{PROTOBUF_VERSION}"))` — the persistent
per-version artifact cache directory. -/
def protobufDir (p : Platform) (out_dir : String) : String :=
  pathJoin p out_dir ("protobuf-" ++ PROTOBUF_VERSION)

/-- `out_dir.join(format!("build-protobuf-{PROTOBUF_VERSION}"))` — the
persistent per-version scratch build directory. -/
def buildDirPath (p : Platform) (out_dir : String) : String :=
  pathJoin p out_dir ("build-protobuf-" ++ PROTOBUF_VERSION)

/-- `if cfg!(windows) { "protoc.exe" } else { "protoc" }` -/
def protoc_name (p : Platform) : String :=
  if p.windows then "protoc.exe" else "protoc"

/-- The configuration handed to `prost_build::Config` before
`compile_protos`: the explicit `protoc` executable, the `btree_map`
patterns, the proto files and the include roots. -/
structure ProstConfig where
  protocExecutable : String
  btreeMap : List String
  protos : List String
  includes : List String
deriving DecidableEq, Repr

/-- Behaviour of everything outside the script: whether each filesystem
primitive succeeds, what the opaque external cmake build produces, and the
result of each `prost_build` toolchain invocation (`none` = success,
`some d` = failure with diagnostic `d`). -/
structure Ext where
  createBuildDirOk : Bool
  createTempdirOk : Bool
  createPrefixOk : Bool
  writeCMakeOk : Bool
  cmakeOk : Bool
  cmakeProducesSrc : Bool
  srcHasConformance : Bool
  cmakeProducesProtoc : Bool
  cmakeProducesRunner : Bool
  copyRunnerOk : Bool
  renameOk : Bool
  runProst : ProstConfig → Option String

/-- Observable state touched by the script.  Existence booleans stand for
`Path::exists` at the fixed paths the script queries: `cacheDirExists` for
`OUT_DIR/protobuf-<version>`, `cacheHasProtoc` for `bin/<protoc-name>`
inside it, `srcTreeExists` for
`build-protobuf-<version>/build/_deps/protobuf-src`, `conformanceDirExists`
for the `conformance` directory inside that source tree, `tempdirExists`
and the `prefix*` fields for the ephemeral staging directory and its
contents.  `dyldVar` is `DYLD_LIBRARY_PATH` (`none` = unset), `cmakeFile`
the content of the written `CMakeLists.txt`, `cmakeInvocations` counts
`config.build()` calls, and `cargoLines` the `println!("cargo:...")`
output. -/
structure World where
  cacheDirExists : Bool
  cacheHasProtoc : Bool
  buildDirExists : Bool
  tempdirExists : Bool
  prefixDirExists : Bool
  prefixHasProtoc : Bool
  prefixHasRunner : Bool
  cmakeFile : Option String
  srcTreeExists : Bool
  conformanceDirExists : Bool
  dyldVar : Option String
  cmakeInvocations : Nat
  cargoLines : List String

/-- Errors, one constructor per `bail!` / `.context(...)?` site. -/
inductive Err where
  | outDirNotSet
  | createBuildDirFailed
  | createTempdirFailed
  | createPrefixFailed
  | writeCMakeFailed
  | cmakeBuildFailed
  | copyRunnerFailed
  | renameFailed
  | protocNotFound (path : String)
  | protobufSrcNotFound (path : String)
  | conformanceCompileFailed (diag : String)
  | testProtosCompileFailed (diag : String)
deriving DecidableEq, Repr

/-- `let system_processor = match () { _ if cfg!(target_arch = "aarch64") =>
"aarch64", _ if cfg!(target_arch = "x86_64") => "x86_64", _ => "unknown" }` -/
def system_processor (p : Platform) : String :=
  match p.arch with
  | .aarch64 => "aarch64"
  | .x86_64 => "x86_64"
  | .other => "unknown"

/-- `let build_conformance = if cfg!(windows) { "OFF" } else { "ON" };` -/
def build_conformance (p : Platform) : String :=
  if p.windows then "OFF" else "ON"

/-- The `set(protobuf_BUILD_CONFORMANCE {conformance})` line of the
generated descriptor. -/
def conformance_set_line (p : Platform) : String :=
  "set(protobuf_BUILD_CONFORMANCE " ++ build_conformance p ++ ")\n"

/-- The part of the generated `CMakeLists.txt` text before the
`protobuf_BUILD_CONFORMANCE` line. -/
def cmake_header (p : Platform) : String :=
  "cmake_minimum_required(VERSION 3.14)\n"
  ++ "\n"
  ++ "# Set processor type BEFORE project() so CMake detection works correctly\n"
  ++ "set(CMAKE_SYSTEM_PROCESSOR " ++ system_processor p ++ ")\n"
  ++ "\n"
  ++ "project(protobuf-fetcher C CXX)\n"
  ++ "\n"
  ++ "include(FetchContent)\n"
  ++ "\n"
  ++ "FetchContent_Declare(\n"
  ++ "  protobuf\n"
  ++ "  GIT_REPOSITORY https://github.com/protocolbuffers/protobuf.git\n"
  ++ "  GIT_TAG " ++ PROTOBUF_TAG ++ "\n"
  ++ "  GIT_SHALLOW TRUE\n"
  ++ ")\n"
  ++ "\n"
  ++ "set(CMAKE_CXX_STANDARD 14)\n"
  ++ "set(CMAKE_CXX_STANDARD_REQUIRED ON)\n"
  ++ "set(ABSL_PROPAGATE_CXX_STD ON)\n"
  ++ "set(ABSL_USE_EXTERNAL_GOOGLETEST ON)\n"
  ++ "set(ABSL_BUILD_TESTING OFF)\n"
  ++ "set(ABSL_ENABLE_INSTALL ON)\n"

/-- The part of the generated `CMakeLists.txt` text after the
`protobuf_BUILD_CONFORMANCE` line. -/
def cmake_footer : String :=
  "set(protobuf_BUILD_TESTS OFF)\n"
  ++ "set(protobuf_ABSL_PROVIDER \"module\")\n"
  ++ "\n"
  ++ "# On macOS with Nix, abseil's multi-arch support conflicts with Nix's --target flags.\n"
  ++ "# Only apply workaround if we detect Nix environment (CMAKE_C_FLAGS contains --target).\n"
  ++ "if(APPLE AND CMAKE_OSX_ARCHITECTURES STREQUAL \"arm64\")\n"
  ++ "  # Check if CMAKE_C_FLAGS suggests we're in Nix (contains --target)\n"
  ++ "  string(FIND \"$\x7bCMAKE_C_FLAGS\x7d\" \"--target\" NIX_DETECTED)\n"
  ++ "  if(NOT NIX_DETECTED EQUAL -1)\n"
  ++ "    message(STATUS \"Detected Nix environment, applying abseil workaround\")\n"
  ++ "    set(_SAVED_APPLE \"$\x7bAPPLE\x7d\")\n"
  ++ "    set(APPLE FALSE CACHE BOOL \"\" FORCE)\n"
  ++ "  endif()\n"
  ++ "endif()\n"
  ++ "\n"
  ++ "FetchContent_MakeAvailable(protobuf)\n"
  ++ "\n"
  ++ "# Restore APPLE flag after configuration\n"
  ++ "if(_SAVED_APPLE)\n"
  ++ "  set(APPLE \"$\x7b_SAVED_APPLE\x7d\" CACHE BOOL \"\" FORCE)\n"
  ++ "endif()\n"

/-- The `CMakeLists.txt` text produced by `write_cmake_file`: the Rust
`format!` raw string with `{system_processor}`, `{tag}` and `{conformance}`
substituted and the doubled braces unescaped. -/
def cmake_content (p : Platform) : String :=
  cmake_header p ++ conformance_set_line p ++ cmake_footer

/-- `write_cmake_file(build_dir)`: writes `cmake_content` to
`CMakeLists.txt` inside the build directory. -/
def write_cmake_file (p : Platform) (ext : Ext) (w : World) :
    Except Err Unit × World :=
  if ext.writeCMakeOk then
    (.ok (), { w with cmakeFile := some (cmake_content p) })
  else
    (.error .writeCMakeFailed, w)

/-- `build_with_cmake(build_dir, prefix_dir)`: one opaque `config.build()`
invocation (its defines and `-j2` argument are inputs to the opaque
subprocess and not further modelled), then, on non-Windows hosts, the probe
for `build/_deps/protobuf-build/conformance_test_runner` and its copy into
`prefix/bin` when present. -/
def build_with_cmake (p : Platform) (ext : Ext) (w : World) :
    Except Err Unit × World :=
  let w := { w with cmakeInvocations := w.cmakeInvocations + 1 }
  if ext.cmakeOk then
    let w := { w with
      srcTreeExists := ext.cmakeProducesSrc,
      conformanceDirExists := ext.cmakeProducesSrc && ext.srcHasConformance,
      prefixHasProtoc := ext.cmakeProducesProtoc }
    if !p.windows then
      if ext.cmakeProducesRunner then
        if ext.copyRunnerOk then
          (.ok (), { w with prefixHasRunner := true })
        else
          (.error .copyRunnerFailed, w)
      else (.ok (), w)
    else (.ok (), w)
  else
    (.error .cmakeBuildFailed, w)

/-- Body of `build_protobuf` from `fs::create_dir(&prefix_dir)` onward,
i.e. everything inside the lifetime of the `tempdir` guard: create the
`prefix` staging subtree, write the descriptor, run the external build, and
on success `fs::rename` the prefix into the persistent cache path. -/
def build_protobuf_inner (p : Platform) (ext : Ext) (w : World) :
    Except Err Unit × World :=
  if ext.createPrefixOk then
    let w := { w with prefixDirExists := true }
    match write_cmake_file p ext w with
    | (.error e, w) => (.error e, w)
    | (.ok _, w) =>
      match build_with_cmake p ext w with
      | (.error e, w) => (.error e, w)
      | (.ok _, w) =>
        if ext.renameOk then
          (.ok (), { w with
            cacheDirExists := true,
            cacheHasProtoc := w.prefixHasProtoc,
            prefixDirExists := false,
            prefixHasProtoc := false,
            prefixHasRunner := false })
        else
          (.error .renameFailed, w)
  else
    (.error .createPrefixFailed, w)

/-- `build_protobuf(out_dir, protobuf_dir)`: create the scratch build
directory, create the tempfile staging directory, run the inner body, and
drop the `TempDir` guard — which removes the staging directory and whatever
is still inside it — on every exit path. -/
def build_protobuf (p : Platform) (ext : Ext) (w : World) :
    Except Err Unit × World :=
  if ext.createBuildDirOk then
    let w := { w with buildDirExists := true }
    if ext.createTempdirOk then
      let w := { w with tempdirExists := true }
      let (r, w) := build_protobuf_inner p ext w
      (r, { w with
        tempdirExists := false,
        prefixDirExists := false,
        prefixHasProtoc := false,
        prefixHasRunner := false })
    else
      (.error .createTempdirFailed, w)
  else
    (.error .createBuildDirFailed, w)

/-- The `prost_build::Config` of the optional conformance pass:
`protoc_executable(..)`, protos `[conformance_dir/conformance.proto]`,
includes `[conformance_dir]`, no `btree_map`. -/
def conformanceConfig (p : Platform) (protoc_executable conformance_dir : String) :
    ProstConfig :=
  { protocExecutable := protoc_executable
    btreeMap := []
    protos := [pathJoin p conformance_dir "conformance.proto"]
    includes := [conformance_dir] }

/-- The `prost_build::Config` of the mandatory test-message pass:
`protoc_executable(..)`, `btree_map(["."])`, the three fixed proto files
under `proto_dir`, includes `[proto_dir]`. -/
def testProtosConfig (p : Platform) (protoc_executable proto_dir : String) :
    ProstConfig :=
  { protocExecutable := protoc_executable
    btreeMap := ["."]
    protos :=
      [pathJoin p proto_dir "google/protobuf/test_messages_proto2.proto",
       pathJoin p proto_dir "google/protobuf/test_messages_proto3.proto",
       pathJoin p proto_dir "google/protobuf/unittest.proto"]
    includes := [proto_dir] }

/-- `protobuf_dir.join("bin").join(protoc_name)` — the expected toolchain
executable path inside the artifact tree. -/
def protocExecutablePath (p : Platform) (out_dir : String) : String :=
  pathJoin p (pathJoin p (protobufDir p out_dir) "bin") (protoc_name p)

/-- `out_dir.join("build-protobuf-<version>").join("build").join("_deps")
.join("protobuf-src")` — the fetched upstream source tree. -/
def protobufSrcPath (p : Platform) (out_dir : String) : String :=
  pathJoin p (pathJoin p (pathJoin p (buildDirPath p out_dir) "build") "_deps")
    "protobuf-src"

/-- `protobuf_src.join("conformance")` — the optional conformance schema
directory. -/
def conformanceDirPath (p : Platform) (out_dir : String) : String :=
  pathJoin p (protobufSrcPath p out_dir) "conformance"

/-- `protobuf_src.join("src")` — the include root of the mandatory pass. -/
def protoDirPath (p : Platform) (out_dir : String) : String :=
  pathJoin p (protobufSrcPath p out_dir) "src"

/-- `compile_proto_files(out_dir, protobuf_dir)`: check the toolchain
executable, extend `DYLD_LIBRARY_PATH` on macOS, check the fetched source
tree, run the optional conformance pass when its directory exists, then the
mandatory test-message pass. -/
def compile_proto_files (p : Platform) (ext : Ext) (out_dir : String) (w : World) :
    Except Err Unit × World :=
  let protoc_executable := protocExecutablePath p out_dir
  if !(w.cacheDirExists && w.cacheHasProtoc) then
    (.error (.protocNotFound protoc_executable), w)
  else
    let w :=
      if p.macos then
        let lib_dir := pathJoin p (protobufDir p out_dir) "lib"
        let current := w.dyldVar.getD ""
        let new_path :=
          if current = "" then lib_dir
          else lib_dir ++ ":" ++ current
        { w with dyldVar := some new_path }
      else w
    let protobuf_src := protobufSrcPath p out_dir
    if !w.srcTreeExists then
      (.error (.protobufSrcNotFound protobuf_src), w)
    else
      let conformance_dir := conformanceDirPath p out_dir
      let confResult : Option String :=
        if w.conformanceDirExists then
          ext.runProst (conformanceConfig p protoc_executable conformance_dir)
        else none
      match confResult with
      | some d => (.error (.conformanceCompileFailed d), w)
      | none =>
        let proto_dir := protoDirPath p out_dir
        match ext.runProst (testProtosConfig p protoc_executable proto_dir) with
        | some d => (.error (.testProtosCompileFailed d), w)
        | none => (.ok (), w)

/-- `main()`: read `OUT_DIR`, build the dependency unless the persistent
cache directory for the pinned version already exists, compile the proto
files, and expose the artifact path via `cargo:rustc-env=PROTOBUF=`. -/
def main (p : Platform) (ext : Ext) (outDirVar : Option String) (w : World) :
    Except Err Unit × World :=
  match outDirVar with
  | none => (.error .outDirNotSet, w)
  | some out_dir =>
    let protobuf_dir := protobufDir p out_dir
    let (r, w) :=
      if !w.cacheDirExists then build_protobuf p ext w
      else (.ok (), w)
    match r with
    | .error e => (.error e, w)
    | .ok _ =>
      match compile_proto_files p ext out_dir w with
      | (.error e, w) => (.error e, w)
      | (.ok _, w) =>
        (.ok (),
          { w with cargoLines :=
              w.cargoLines ++ ["cargo:rustc-env=PROTOBUF=" ++ protobuf_dir] })

/-! ### Shared helper lemmas -/

/-- `compile_proto_files` touches no state other than `DYLD_LIBRARY_PATH`:
its final world is the initial one with only `dyldVar` possibly changed. -/
theorem compile_proto_files_state (p : Platform) (ext : Ext) (out_dir : String)
    (w : World) :
    (compile_proto_files p ext out_dir w).2 =
      { w with dyldVar := (compile_proto_files p ext out_dir w).2.dyldVar } := by
  simp only [compile_proto_files]
  repeat' split
  all_goals rfl

/-- C3: for every host platform the generated build descriptor contains the
`protobuf_BUILD_CONFORMANCE` setting with flag exactly `"OFF"` when the
host is Windows and exactly `"ON"` on every other platform; the flag is a
pure function of the platform. -/
theorem conformance_flag_platform (p : Platform) :
    cmake_content p = cmake_header p ++ conformance_set_line p ++ cmake_footer ∧
    conformance_set_line p =
      (if p.windows then "set(protobuf_BUILD_CONFORMANCE OFF)\n"
       else "set(protobuf_BUILD_CONFORMANCE ON)\n") ∧
    (build_conformance p = "OFF" ↔ p.windows = true) ∧
    (build_conformance p = "ON" ↔ p.windows = false) := by
  refine ⟨rfl, ?_, ?_, ?_⟩ <;>
    simp only [conformance_set_line, build_conformance] <;>
    cases p.windows <;> simp

/-- C1: when the persistent per-version cache directory already exists, a
run performs no build step — no descriptor is written and the external
build system is not invoked — and, on success, exposes the very same
artifact path `OUT_DIR/protobuf-<version>` that a first run publishes and
exposes. -/
theorem cache_hit_idempotent (p : Platform) (ext : Ext) (out_dir : String)
    (w : World) (h : w.cacheDirExists = true) :
    (main p ext (some out_dir) w).2.cmakeInvocations = w.cmakeInvocations ∧
    (main p ext (some out_dir) w).2.cmakeFile = w.cmakeFile ∧
    (main p ext (some out_dir) w).2.cacheDirExists = true ∧
    ∀ u, (main p ext (some out_dir) w).1 = .ok u →
      (main p ext (some out_dir) w).2.cargoLines =
        w.cargoLines ++ ["cargo:rustc-env=PROTOBUF=" ++ protobufDir p out_dir] := by
  have hs := compile_proto_files_state p ext out_dir w
  simp only [main, h, Bool.not_true]
  rcases hc : compile_proto_files p ext out_dir w with ⟨r, w'⟩
  rw [hc] at hs
  simp only [Prod.snd] at hs
  have hinv : w'.cmakeInvocations = w.cmakeInvocations := by rw [hs]
  have hfile : w'.cmakeFile = w.cmakeFile := by rw [hs]
  have hcache : w'.cacheDirExists = w.cacheDirExists := by rw [hs]
  have hcargo : w'.cargoLines = w.cargoLines := by rw [hs]
  cases r <;> simp [hc, hinv, hfile, hcache, hcargo, h]

/-- C2: whatever the outcome of any step of the build
(directory creation, descriptor write, external build, runner copy,
rename), the temporary staging directory is gone afterwards; on any failure
no persistent artifact cache directory exists; and on success the staged
"prefix" subtree has been moved into the persistent cache path, carrying
its contents. -/
theorem build_atomicity (p : Platform) (ext : Ext) (w : World)
    (h1 : w.cacheDirExists = false) (h2 : w.tempdirExists = false)
    (h3 : w.prefixDirExists = false) :
    (build_protobuf p ext w).2.tempdirExists = false ∧
    (build_protobuf p ext w).2.prefixDirExists = false ∧
    (∀ e, (build_protobuf p ext w).1 = .error e →
      (build_protobuf p ext w).2.cacheDirExists = false) ∧
    ∀ u, (build_protobuf p ext w).1 = .ok u →
      (build_protobuf p ext w).2.cacheDirExists = true ∧
      (build_protobuf p ext w).2.cacheHasProtoc = ext.cmakeProducesProtoc := by
  obtain ⟨pw, pm, pa⟩ := p
  obtain ⟨b1, b2, b3, b4, b5, b6, b7, b8, b9, b10, b11, rp⟩ := ext
  cases b1 <;> cases b2 <;> cases b3 <;> cases b4 <;> cases b5 <;>
    cases b9 <;> cases b10 <;> cases b11 <;> cases pw <;>
    simp [build_protobuf, build_protobuf_inner, write_cmake_file,
      build_with_cmake, h1, h2, h3]

/-- C4: the code-generation step fails with the toolchain-not-found error —
naming the path `bin/<protoc-name>` inside the artifact tree, with the name
`protoc.exe` on Windows and `protoc` elsewhere — exactly when that
executable is absent; when it is present, execution proceeds past this
check. -/
theorem toolchain_missing_detection (p : Platform) (ext : Ext)
    (out_dir : String) (w : World) :
    ((compile_proto_files p ext out_dir w).1 =
        .error (.protocNotFound (protocExecutablePath p out_dir)) ↔
      ¬(w.cacheDirExists = true ∧ w.cacheHasProtoc = true)) ∧
    (p.windows = true → protoc_name p = "protoc.exe") ∧
    (p.windows = false → protoc_name p = "protoc") := by
  refine ⟨?_, ?_, ?_⟩
  · cases hb : (w.cacheDirExists && w.cacheHasProtoc) with
    | false =>
      simp only [compile_proto_files, hb, Bool.not_false, if_true]
      rw [Bool.and_eq_false_iff] at hb
      rcases hb with hb | hb <;> simp [hb]
    | true =>
      simp only [compile_proto_files, hb, Bool.not_true, Bool.false_eq_true,
        if_false]
      simp only [Bool.and_eq_true] at hb
      repeat' split
      all_goals simp [hb]
  · intro hw; simp [protoc_name, hw]
  · intro hw; simp [protoc_name, hw]

/-- C7: once past the toolchain check, the code-generation step fails with
the source-tree-missing error — naming the nested fetched-source path
`build-protobuf-<version>/build/_deps/protobuf-src` under the output root —
exactly when that path does not exist, whatever the toolchain invocations
would do. -/
theorem source_tree_check (p : Platform) (ext : Ext) (out_dir : String)
    (w : World)
    (h1 : w.cacheDirExists = true) (h2 : w.cacheHasProtoc = true) :
    (compile_proto_files p ext out_dir w).1 =
        .error (.protobufSrcNotFound (protobufSrcPath p out_dir)) ↔
      w.srcTreeExists = false := by
  simp only [compile_proto_files, h1, h2, Bool.and_self, Bool.not_true,
    Bool.false_eq_true, if_false]
  repeat' split
  all_goals simp_all

/-- C8: on macOS, before invoking the toolchain, `DYLD_LIBRARY_PATH` is set
to the artifact tree's `lib` directory when it was previously unset or
empty, and to `<lib-dir>:<previous>` (prepended, previous value preserved)
when it was non-empty; on every other platform it is left unchanged. -/
theorem dyld_library_path (p : Platform) (ext : Ext) (out_dir : String)
    (w : World)
    (h1 : w.cacheDirExists = true) (h2 : w.cacheHasProtoc = true) :
    (p.macos = true →
      ((w.dyldVar = none ∨ w.dyldVar = some "") →
        (compile_proto_files p ext out_dir w).2.dyldVar =
          some (pathJoin p (protobufDir p out_dir) "lib")) ∧
      ∀ s, s ≠ "" → w.dyldVar = some s →
        (compile_proto_files p ext out_dir w).2.dyldVar =
          some (pathJoin p (protobufDir p out_dir) "lib" ++ ":" ++ s)) ∧
    (p.macos = false →
      (compile_proto_files p ext out_dir w).2.dyldVar = w.dyldVar) := by
  simp only [compile_proto_files, h1, h2, Bool.and_self, Bool.not_true,
    Bool.false_eq_true, if_false]
  constructor
  · intro hm
    simp only [hm, if_true]
    constructor
    · rintro (hd | hd) <;> simp only [hd] <;> repeat' split
      all_goals simp_all
    · intro s hs hd
      simp only [hd]
      repeat' split
      all_goals simp_all [Option.getD]
  · intro hm
    simp only [hm, Bool.false_eq_true, if_false]
    repeat' split
    all_goals simp_all

/-- C5: the conformance pass is skipped silently exactly when the
conformance directory is absent from the fetched source tree — the run then
never reports a conformance compilation error, and succeeds whenever the
mandatory pass does; when the directory exists the pass is attempted, and a
compilation failure there is a fatal error. -/
theorem conformance_optional (p : Platform) (ext : Ext) (out_dir : String)
    (w : World)
    (h1 : w.cacheDirExists = true) (h2 : w.cacheHasProtoc = true)
    (hsrc : w.srcTreeExists = true) :
    (w.conformanceDirExists = false →
      (∀ d, (compile_proto_files p ext out_dir w).1 ≠
        .error (.conformanceCompileFailed d)) ∧
      ((compile_proto_files p ext out_dir w).1 = .ok () ↔
        ext.runProst (testProtosConfig p (protocExecutablePath p out_dir)
          (protoDirPath p out_dir)) = none)) ∧
    (w.conformanceDirExists = true →
      ∀ d, ext.runProst (conformanceConfig p (protocExecutablePath p out_dir)
          (conformanceDirPath p out_dir)) = some d →
        (compile_proto_files p ext out_dir w).1 =
          .error (.conformanceCompileFailed d)) := by
  simp only [compile_proto_files, h1, h2, hsrc, Bool.and_self, Bool.not_true,
    Bool.false_eq_true, if_false]
  constructor
  · intro hconf
    simp only [hconf, Bool.false_eq_true, if_false]
    repeat' split
    all_goals simp_all
  · intro hconf d hd
    simp only [hconf, if_true]
    repeat' split
    all_goals simp_all

/-- C6: the mandatory pass hands the toolchain exactly the three fixed
test-message schema files rooted at the fetched source tree's `src`
directory, with the BTreeMap (deterministic sorted-order) map mode enabled
for all map fields via the pattern `"."`; a failure of this pass is fatal
and the error carries the underlying diagnostic. -/
theorem mandatory_pass (p : Platform) (ext : Ext) (out_dir : String)
    (w : World)
    (h1 : w.cacheDirExists = true) (h2 : w.cacheHasProtoc = true)
    (hsrc : w.srcTreeExists = true)
    (hconf : w.conformanceDirExists = false ∨
      ext.runProst (conformanceConfig p (protocExecutablePath p out_dir)
        (conformanceDirPath p out_dir)) = none) :
    (testProtosConfig p (protocExecutablePath p out_dir)
        (protoDirPath p out_dir)).btreeMap = ["."] ∧
    (testProtosConfig p (protocExecutablePath p out_dir)
        (protoDirPath p out_dir)).protos =
      [pathJoin p (protoDirPath p out_dir)
          "google/protobuf/test_messages_proto2.proto",
       pathJoin p (protoDirPath p out_dir)
          "google/protobuf/test_messages_proto3.proto",
       pathJoin p (protoDirPath p out_dir) "google/protobuf/unittest.proto"] ∧
    ∀ d, ext.runProst (testProtosConfig p (protocExecutablePath p out_dir)
        (protoDirPath p out_dir)) = some d →
      (compile_proto_files p ext out_dir w).1 =
        .error (.testProtosCompileFailed d) := by
  refine ⟨rfl, rfl, ?_⟩
  intro d hd
  simp only [compile_proto_files, h1, h2, hsrc, Bool.and_self, Bool.not_true,
    Bool.false_eq_true, if_false]
  rcases hconf with hconf | hconf <;>
    simp only [hconf, Bool.false_eq_true, if_false, if_true] <;>
    repeat' split
  all_goals simp_all

/-- C9: when the persistent cache directory exists but lacks the expected
toolchain executable, a run neither rebuilds nor removes the cache: the
external build system is never invoked, the cache directory is left in
place, and the run terminates with the toolchain-not-found error. -/
theorem stale_cache_not_repaired (p : Platform) (ext : Ext) (out_dir : String)
    (w : World)
    (h1 : w.cacheDirExists = true) (h2 : w.cacheHasProtoc = false) :
    (main p ext (some out_dir) w).1 =
      .error (.protocNotFound (protocExecutablePath p out_dir)) ∧
    (main p ext (some out_dir) w).2.cmakeInvocations = w.cmakeInvocations ∧
    (main p ext (some out_dir) w).2.cacheDirExists = true := by
  simp [main, compile_proto_files, h1, h2]

/-- C10: the artifact cache alone does not make a run succeed — when the
cache directory and its toolchain exist but the fetched source tree under
the scratch directory has been deleted, the run skips the build and then
fails with the source-tree-missing error, without re-invoking the external
build system. -/
theorem cache_hit_requires_scratch_tree (p : Platform) (ext : Ext)
    (out_dir : String) (w : World)
    (h1 : w.cacheDirExists = true) (h2 : w.cacheHasProtoc = true)
    (h3 : w.srcTreeExists = false) :
    (main p ext (some out_dir) w).1 =
      .error (.protobufSrcNotFound (protobufSrcPath p out_dir)) ∧
    (main p ext (some out_dir) w).2.cmakeInvocations = w.cmakeInvocations := by
  cases hm : p.macos <;>
    simp [main, compile_proto_files, h1, h2, h3, hm]

/-! ### Concrete fixtures for witnesses -/

/-- A non-Windows, non-macOS host. -/
def linuxPlatform : Platform := ⟨false, false, .x86_64⟩

/-- A macOS host. -/
def macPlatform : Platform := ⟨false, true, .aarch64⟩

/-- An environment in which every external step succeeds and every
toolchain invocation compiles cleanly. -/
def extAllOk : Ext :=
  ⟨true, true, true, true, true, true, true, true, true, true, true,
    fun _ => none⟩

/-- The pristine world: nothing exists yet, no env var set, no output. -/
def world0 : World :=
  ⟨false, false, false, false, false, false, false, none, false, false,
    none, 0, []⟩

/-- A world after a completed first run: cache with toolchain, fetched
source tree present, no conformance directory. -/
def worldReady : World :=
  { world0 with cacheDirExists := true, cacheHasProtoc := true,
                srcTreeExists := true }

/-- A world with a stale cache: the directory exists but the toolchain
executable inside it does not. -/
def worldStale : World := { world0 with cacheDirExists := true }

/-- A world with a valid cache but a deleted scratch source tree. -/
def worldNoSrc : World :=
  { world0 with cacheDirExists := true, cacheHasProtoc := true }

/-- Witness for C1 at a concrete cached world. -/
theorem cache_hit_idempotent_witness :
    worldReady.cacheDirExists = true ∧
    (main linuxPlatform extAllOk (some "out") worldReady).2.cmakeInvocations =
      worldReady.cmakeInvocations :=
  ⟨rfl, (cache_hit_idempotent linuxPlatform extAllOk "out" worldReady rfl).1⟩

/-- Witness for C2 at the pristine world. -/
theorem build_atomicity_witness :
    world0.cacheDirExists = false ∧ world0.tempdirExists = false ∧
    world0.prefixDirExists = false ∧
    (build_protobuf linuxPlatform extAllOk world0).2.tempdirExists = false :=
  ⟨rfl, rfl, rfl, (build_atomicity linuxPlatform extAllOk world0 rfl rfl rfl).1⟩

/-- Witness for C4 at a world whose cache lacks the toolchain. -/
theorem toolchain_missing_detection_witness :
    (compile_proto_files linuxPlatform extAllOk "out" world0).1 =
      .error (.protocNotFound (protocExecutablePath linuxPlatform "out")) :=
  (toolchain_missing_detection linuxPlatform extAllOk "out" world0).1.mpr
    (by decide)

/-- Witness for C5 at a world lacking the conformance directory. -/
theorem conformance_optional_witness :
    worldReady.cacheDirExists = true ∧ worldReady.cacheHasProtoc = true ∧
    worldReady.srcTreeExists = true ∧ worldReady.conformanceDirExists = false ∧
    ∀ d, (compile_proto_files linuxPlatform extAllOk "out" worldReady).1 ≠
      .error (.conformanceCompileFailed d) :=
  ⟨rfl, rfl, rfl, rfl,
    ((conformance_optional linuxPlatform extAllOk "out" worldReady
      rfl rfl rfl).1 rfl).1⟩

/-- Witness for C6 at a ready world. -/
theorem mandatory_pass_witness :
    worldReady.cacheDirExists = true ∧ worldReady.cacheHasProtoc = true ∧
    worldReady.srcTreeExists = true ∧
    (testProtosConfig linuxPlatform (protocExecutablePath linuxPlatform "out")
      (protoDirPath linuxPlatform "out")).btreeMap = ["."] :=
  ⟨rfl, rfl, rfl,
    (mandatory_pass linuxPlatform extAllOk "out" worldReady rfl rfl rfl
      (Or.inl rfl)).1⟩

/-- Witness for C7 at a world whose scratch source tree is gone. -/
theorem source_tree_check_witness :
    worldNoSrc.cacheDirExists = true ∧ worldNoSrc.cacheHasProtoc = true ∧
    (compile_proto_files linuxPlatform extAllOk "out" worldNoSrc).1 =
      .error (.protobufSrcNotFound (protobufSrcPath linuxPlatform "out")) :=
  ⟨rfl, rfl,
    (source_tree_check linuxPlatform extAllOk "out" worldNoSrc rfl rfl).mpr rfl⟩

/-- Witness for C8 on a macOS host with the variable initially unset. -/
theorem dyld_library_path_witness :
    worldReady.cacheDirExists = true ∧ worldReady.cacheHasProtoc = true ∧
    (compile_proto_files macPlatform extAllOk "out" worldReady).2.dyldVar =
      some (pathJoin macPlatform (protobufDir macPlatform "out") "lib") :=
  ⟨rfl, rfl,
    ((dyld_library_path macPlatform extAllOk "out" worldReady rfl rfl).1
      rfl).1 (Or.inl rfl)⟩

/-- Witness for C9 at a stale-cache world. -/
theorem stale_cache_not_repaired_witness :
    worldStale.cacheDirExists = true ∧ worldStale.cacheHasProtoc = false ∧
    (main linuxPlatform extAllOk (some "out") worldStale).1 =
      .error (.protocNotFound (protocExecutablePath linuxPlatform "out")) :=
  ⟨rfl, rfl,
    (stale_cache_not_repaired linuxPlatform extAllOk "out" worldStale
      rfl rfl).1⟩

/-- Witness for C10 at a cached world whose scratch tree is gone. -/
theorem cache_hit_requires_scratch_tree_witness :
    worldNoSrc.cacheDirExists = true ∧ worldNoSrc.cacheHasProtoc = true ∧
    worldNoSrc.srcTreeExists = false ∧
    (main linuxPlatform extAllOk (some "out") worldNoSrc).1 =
      .error (.protobufSrcNotFound (protobufSrcPath linuxPlatform "out")) :=
  ⟨rfl, rfl, rfl,
    (cache_hit_requires_scratch_tree linuxPlatform extAllOk "out" worldNoSrc
      rfl rfl rfl).1⟩

end ProtobufBuild
